import Mathlib

/-!
Verification of the movie-predictor scraper (src/scraper.py) against its
specification.  The Python source is shallowly embedded: each Python function
becomes a Lean definition of the same name; Python exceptions caught by a
bare try/except become Option/Except values; the external collaborators
(requests fetch, BeautifulSoup parse trees, dateutil, word2number) are
modelled explicitly below, each with a comment stating the modelled
behaviour.  String operations are implemented structurally over character
lists so that every definition evaluates by kernel reduction.
-/

/-! ## Python string primitives

Models of the Python string operations the scraper uses.  All separators
and replacement patterns in the source are single characters, so the
models take a Char where Python takes a one-character string.
-/

/-- chars_leadmatch pat s is true iff pat is a leading segment of s. -/
def chars_leadmatch : List Char → List Char → Bool
  | [], _ => true
  | _ :: _, [] => false
  | a :: as, b :: bs => a = b && chars_leadmatch as bs

/-- chars_has_sub pat s is true iff pat occurs contiguously inside s.
Models the Python substring test (pat in s) and re.search for the literal
label patterns this scraper uses (none of its patterns contain regex
metacharacters). -/
def chars_has_sub (pat : List Char) : List Char → Bool
  | [] => chars_leadmatch pat []
  | c :: cs => chars_leadmatch pat (c :: cs) || chars_has_sub pat cs

/-- String-level substring containment: str_has_sub s pat ⟺ pat occurs in s. -/
def str_has_sub (s pat : String) : Bool := chars_has_sub pat.toList s.toList

/-- Split a character list at every occurrence of sep, keeping empty
segments; never returns an empty list. -/
def chars_split (sep : Char) : List Char → List (List Char)
  | [] => [[]]
  | c :: cs =>
    if c = sep then [] :: chars_split sep cs
    else
      match chars_split sep cs with
      | [] => [[c]]
      | g :: gs => (c :: g) :: gs

/-- Python str.split(sep) for a single-character separator: keeps empty
segments, and on the empty string yields [""]. -/
def pysplit (sep : Char) (s : String) : List String :=
  (chars_split sep s.toList).map String.mk

/-- Python str.split() with no argument: split on whitespace runs, dropping
empty segments, so pysplit_ws "" = []. -/
def pysplit_ws (s : String) : List String :=
  ((s.toList.splitOnP Char.isWhitespace).filter (fun t => t ≠ [])).map String.mk

/-- Python str.strip(): drop leading and trailing whitespace. -/
def pytrim (s : String) : String :=
  String.mk (((s.toList.dropWhile Char.isWhitespace).reverse.dropWhile
    Char.isWhitespace).reverse)

/-- Python str.strip(c) for a single character c: drop all leading and
trailing copies of c. -/
def pystrip_char (c : Char) (s : String) : String :=
  String.mk (((s.toList.dropWhile (fun d => d = c)).reverse.dropWhile
    (fun d => d = c)).reverse)

/-- Python str.lower(). -/
def pylower (s : String) : String := String.mk (s.toList.map Char.toLower)

/-- Python str.replace(c, "") for a single character c: remove every
occurrence. -/
def pydel (c : Char) (s : String) : String :=
  String.mk (s.toList.filter (fun d => d ≠ c))

/-- Python str.replace(c, r) for single characters. -/
def pyswap (c r : Char) (s : String) : String :=
  String.mk (s.toList.map (fun d => if d = c then r else d))

/-- Value of a nonempty all-digit character list, none otherwise. -/
def chars_to_nat : List Char → Option Nat
  | [] => none
  | cs =>
    if cs.all Char.isDigit then
      some (cs.foldl (fun n c => n * 10 + (c.toNat - 48)) 0)
    else none

/-- Python int(str): optional surrounding whitespace, optional sign, then a
nonempty digit string; anything else raises ValueError, modelled as none. -/
def pyint (s : String) : Option Int :=
  match (pytrim s).toList with
  | '-' :: ds => (chars_to_nat ds).map (fun n => -(n : Int))
  | '+' :: ds => (chars_to_nat ds).map (fun n => (n : Int))
  | ds => (chars_to_nat ds).map (fun n => (n : Int))

/-- Exact decimal number: value is (if neg then -1 else 1) * (ip + fp/10^fd).
Stands in for the Python float produced by float(str); on the catalog's
money-scale decimals the exact model and IEEE double arithmetic followed by
int() truncation agree. -/
structure PyDecimal where
  neg : Bool
  ip : Nat
  fp : Nat
  fd : Nat
deriving Repr, DecidableEq

/-- Python float(str) on plain decimal literals (optional sign, digits,
optional fractional part, e.g. "12.5", "700", "-3.25").  Exotic float
syntax (exponents, inf, nan) is outside the modelled domain and yields
none, as do malformed strings (ValueError). -/
def pyfloat (s : String) : Option PyDecimal :=
  let t := (pytrim s).toList
  let neg := chars_leadmatch ['-'] t
  let u := match t with
    | '-' :: r => r
    | '+' :: r => r
    | r => r
  match chars_split '.' u with
  | [a] => (chars_to_nat a).map (fun n => PyDecimal.mk neg n 0 0)
  | [a, b] =>
    if a = [] && b = [] then none
    else if (a = [] || (chars_to_nat a).isSome) &&
            (b = [] || (chars_to_nat b).isSome) then
      some (PyDecimal.mk neg ((chars_to_nat a).getD 0) ((chars_to_nat b).getD 0)
        b.length)
    else none
  | _ => none

/-- Multiplication of a decimal by a natural scale factor (float * int). -/
def pydec_mul (x : PyDecimal) (m : Nat) : PyDecimal :=
  PyDecimal.mk x.neg (x.ip * m) (x.fp * m) x.fd

/-- Python int(float): truncation toward zero, exact on the decimal model. -/
def pydec_trunc (x : PyDecimal) : Int :=
  let a := x.ip + x.fp / 10 ^ x.fd
  if x.neg then -(a : Int) else (a : Int)

/-- Python str(x) for the scalar results of get_movie_value: str of a string
is itself, str(None) is the literal string "None". -/
def pystr : Option String → String
  | none => "None"
  | some s => s

/-- First-match association lookup by string key (Python dict access on the
small literal dictionaries used here). -/
def assoc_lookup (k : String) : List (String × Nat) → Option Nat
  | [] => none
  | (a, v) :: rest => if a = k then some v else assoc_lookup k rest

/-! ## External collaborator models -/

/-- Calendar date, the payload of the dateutil collaborator. -/
structure PyDate where
  year : Int
  month : Nat
  day : Nat
deriving Repr, DecidableEq

/-- Month-name vocabulary of the dateutil model. -/
def month_names : List (String × Nat) :=
  [("january", 1), ("february", 2), ("march", 3), ("april", 4), ("may", 5),
   ("june", 6), ("july", 7), ("august", 8), ("september", 9), ("october", 10),
   ("november", 11), ("december", 12)]

/-- Model of the external dateutil.parser.parse collaborator on the date
shape this catalog uses ("June 13, 2014"): month name, day, year.  Any
other shape (in particular "N/A" and "") raises ValueError in the library,
modelled as none. -/
def dateutil_parse (s : String) : Option PyDate :=
  match pysplit_ws (pyswap ',' ' ' s) with
  | [m, d, y] =>
    match assoc_lookup (pylower m) month_names, pyint d, pyint y with
    | some mo, some dd, some yy =>
      if 1 ≤ dd ∧ dd ≤ 31 then some (PyDate.mk yy mo dd.toNat) else none
    | _, _, _ => none
  | _ => none

/-- Number-word vocabulary of the word2number model. -/
def number_words : List (String × Nat) :=
  [("zero", 0), ("one", 1), ("two", 2), ("three", 3), ("four", 4),
   ("five", 5), ("six", 6), ("seven", 7), ("eight", 8), ("nine", 9),
   ("ten", 10), ("eleven", 11), ("twelve", 12), ("thirteen", 13),
   ("fourteen", 14), ("fifteen", 15), ("sixteen", 16), ("seventeen", 17),
   ("eighteen", 18), ("nineteen", 19), ("twenty", 20), ("thirty", 30),
   ("forty", 40), ("fifty", 50), ("sixty", 60), ("seventy", 70),
   ("eighty", 80), ("ninety", 90)]

/-- Model of the external w2n.word_to_num collaborator on the inputs this
scraper produces (single whitespace-free tokens): a pure digit string is
returned as its numeric value, a single recognised number word is looked
up, and anything else raises ValueError, modelled as none.  (The library
additionally combines several number words; the scraper only ever passes
single tokens, so that part is outside the modelled domain.) -/
def word_to_num (w : String) : Option Nat :=
  let t := pylower (pyswap '-' ' ' w)
  match chars_to_nat t.toList with
  | some n => some n
  | none =>
    match (pysplit_ws t).filter (fun x => (assoc_lookup x number_words).isSome) with
    | [x] => assoc_lookup x number_words
    | _ => none

/-! ## Value normalizers (scraper.py lines 56-135)

Each Python normalizer wraps its whole body in try/except returning None
(or 0 for the award counters), so each is embedded as a total Lean function
into Option (or Nat); the input is Option String because the raw value fed
in by get_movie_data may be Python None (an absent field), on which the
attribute access inside the try block raises and the except branch fires.
-/

/-- clean_title: text before the first parenthesis, stripped; any exception
(in particular None.split on absent input) yields None. -/
def clean_title : Option String → Option String
  | none => none
  | some titlestring => some (pytrim ((pysplit '(' titlestring).headD ""))

/-- to_date: dateutil parse of the stripped string; any exception yields
None. -/
def to_date : Option String → Option PyDate
  | none => none
  | some datestring => dateutil_parse (pytrim datestring)

/-- money_to_int: strip dollar signs and comma separators, then int();
any exception yields None. -/
def money_to_int : Option String → Option Int
  | none => none
  | some moneystring => pyint (pydel ',' (pydel '$' moneystring))

/-- vals_dict lookup of budget_to_int: the magnitude table; a missing key
raises KeyError, modelled as none. -/
def vals_dict (w : String) : Option Nat :=
  assoc_lookup w [("thousand", 1000), ("million", 1000000), ("billion", 1000000000)]

/-- budget_to_int: drop dollar signs, split on spaces, float(first token)
times the magnitude of the second token, truncated to int; any exception
(missing second token, unknown magnitude word, non-numeric first token)
yields None. -/
def budget_to_int : Option String → Option Int
  | none => none
  | some budgetstring =>
    let budget_val_list := pysplit ' ' (pydel '$' budgetstring)
    match budget_val_list.get? 0, budget_val_list.get? 1 with
    | some x, some w =>
      match pyfloat x, vals_dict w with
      | some f, some m => some (pydec_trunc (pydec_mul f m))
      | _, _ => none
    | _, _ => none

/-- noms_from_oscars: first comma clause, stripped and lowered, split on
single spaces; word_to_num of its third token; any exception yields 0. -/
def noms_from_oscars : Option String → Nat
  | none => 0
  | some oscarsstring =>
    let nominations_str :=
      pysplit ' ' (pylower (pytrim ((pysplit ',' oscarsstring).headD "")))
    match nominations_str.get? 2 with
    | none => 0
    | some w => (word_to_num w).getD 0

/-- wins_from_oscars: second comma clause with periods removed, stripped
and lowered, split on single spaces; word_to_num of its second token; any
exception (in particular a missing second clause) yields 0. -/
def wins_from_oscars : Option String → Nat
  | none => 0
  | some oscarsstring =>
    match (pysplit ',' oscarsstring).get? 1 with
    | none => 0
    | some clause =>
      let wins_str := pysplit ' ' (pylower (pytrim (pydel '.' clause)))
      match wins_str.get? 1 with
      | none => 0
      | some w => (word_to_num w).getD 0

/-- theaters_to_int: strip, drop comma separators, take the text before the
first space, int(); any exception yields None. -/
def theaters_to_int : Option String → Option Int
  | none => none
  | some theaterstring =>
    pyint ((pysplit ' ' (pydel ',' (pytrim theaterstring))).headD "")

/-- runtime_to_minutes: whitespace-split, int(token 0) * 60 + int(token 2);
any exception yields None. -/
def runtime_to_minutes : Option String → Option Int
  | none => none
  | some runtimestring =>
    let runtime := pysplit_ws runtimestring
    match runtime.get? 0, runtime.get? 2 with
    | some h, some m =>
      match pyint h, pyint m with
      | some hh, some mm => some (hh * 60 + mm)
      | _, _ => none
    | _, _ => none

/-! ## Parse-tree model (the BeautifulSoup collaborator)

A parsed document is a tree of element (tag) nodes and text nodes; a tag
carries its name, an attribute association list and its children.  The
navigation operations the scraper uses are modelled on it:

  * soup.find(text=re.compile(pat)) — first text node, in document order,
    whose string contains the (literal) pattern;
  * obj.findNextSibling() / obj.findNext() with no arguments — the first
    following sibling that is a tag, resp. the first tag after obj in
    document order (BeautifulSoup find-type calls without a string
    criterion match element nodes only, skipping bare strings);
  * tag.get_text() / tag.text — concatenated text of all descendants;
  * tag.stripped_strings — stripped descendant strings, skipping those
    that strip to nothing;
  * soup.find(name) / find(id=...) / find_all(name) — first (resp. all)
    descendant tags matching the criterion, in document order;
  * tag[attr] — attribute lookup, KeyError (exception) if missing.
-/

inductive Node where
  | text (s : String)
  | tag (name : String) (attrs : List (String × String)) (children : List Node)
deriving Repr

/-- Children of a node (a text node has none). -/
def node_children : Node → List Node
  | .text _ => []
  | .tag _ _ cs => cs

/-- Attribute lookup on a tag; none for a text node or a missing key
(Python KeyError). -/
def attr_get (n : Node) (k : String) : Option String :=
  match n with
  | .text _ => none
  | .tag _ attrs _ => (attrs.find? (fun kv => kv.1 = k)).map (fun kv => kv.2)

mutual
/-- get_text of BeautifulSoup: concatenated text of the whole subtree. -/
def get_text : Node → String
  | .text s => s
  | .tag _ _ cs => get_text_forest cs

def get_text_forest : List Node → String
  | [] => ""
  | c :: cs => get_text c ++ get_text_forest cs
end

mutual
/-- All text-node strings of a subtree, in document order. -/
def texts : Node → List String
  | .text s => [s]
  | .tag _ _ cs => texts_forest cs

def texts_forest : List Node → List String
  | [] => []
  | c :: cs => texts c ++ texts_forest cs
end

/-- stripped_strings of BeautifulSoup: each descendant string stripped,
dropping the ones that strip to nothing. -/
def stripped_strings (n : Node) : List String :=
  ((texts n).map pytrim).filter (fun s => s ≠ "")

/-- First tag of a forest in document order (a tag precedes its own
children, and a text node contributes nothing). -/
def first_tag_in_forest : List Node → Option Node
  | [] => none
  | Node.text _ :: rest => first_tag_in_forest rest
  | Node.tag nm attrs cs :: _ => some (Node.tag nm attrs cs)

mutual
/-- First tag satisfying a predicate on name and attributes, the node itself
included, searching its subtree in document order. -/
def find_tag_node (p : String → List (String × String) → Bool) :
    Node → Option Node
  | .text _ => none
  | .tag nm attrs cs =>
    if p nm attrs then some (Node.tag nm attrs cs) else find_tag_forest p cs

/-- First tag of a forest satisfying the predicate, in document order.
Models find(name)/find(id=...) on the children of a node. -/
def find_tag_forest (p : String → List (String × String) → Bool) :
    List Node → Option Node
  | [] => none
  | c :: rest =>
    match find_tag_node p c with
    | some t => some t
    | none => find_tag_forest p rest
end

mutual
/-- All tags with the given name in a subtree, the node itself included, in
document order. -/
def tags_in_node (nm : String) : Node → List Node
  | .text _ => []
  | .tag n attrs cs =>
    (if n = nm then [Node.tag n attrs cs] else []) ++ tags_in_forest nm cs

/-- All tags with the given name below a forest, in document order.  Models
find_all(name) on the children of a node. -/
def tags_in_forest (nm : String) : List Node → List Node
  | [] => []
  | c :: rest => tags_in_node nm c ++ tags_in_forest nm rest
end

/-- Outcome of soup.find(text=re.compile(pat)) together with the two
follow-up lookups the scraper performs on the found string: sib is
findNextSibling() (first following sibling tag at the match's own level)
and nxt is findNext() (first tag strictly after the match in document
order). -/
structure Found where
  sib : Option Node
  nxt : Option Node

/-- Result of searching one node for the first matching text node: no
match, a direct match (the node is itself matching text, so the enclosing
forest supplies sibling context), or a match inside a tag with its partial
Found. -/
inductive FindRes where
  | miss
  | direct
  | inside (f : Found)

mutual
/-- Search one node for the first text node containing pat. -/
def find_text_node (pat : String) : Node → FindRes
  | .text s => if str_has_sub s pat then .direct else .miss
  | .tag _ _ cs =>
    match find_text_forest pat cs with
    | none => .miss
    | some f => .inside f

/-- Search a forest, in document order, for the first text node containing
pat; if found, report its next sibling tag and next tag in document order.
The recursion keeps enough context: a match directly in this forest takes
its following tags from the remainder, and a match inside a tag keeps its
own sibling but completes a missing next-in-document-order from the
remainder of the enclosing level. -/
def find_text_forest (pat : String) : List Node → Option Found
  | [] => none
  | c :: rest =>
    match find_text_node pat c with
    | .direct =>
      some (Found.mk (first_tag_in_forest rest) (first_tag_in_forest rest))
    | .inside f =>
      some (Found.mk f.sib
        (match f.nxt with
         | some t => some t
         | none => first_tag_in_forest rest))
    | .miss => find_text_forest pat rest
end

/-! ## Label-value locator (scraper.py lines 26-54)

get_movie_value takes a parsed page and a field label; it finds the first
text node matching the label and returns the adjacent content: the next
sibling tag if any, else the next tag in document order, else None.  The
Python function returns a string (get_text of that tag) in scalar mode and
the tag itself when is_people=True; the two modes are embedded as two
monomorphic functions.
-/

/-- get_movie_value with is_people=False: the flattened text of the
adjacent tag. -/
def get_movie_value (soup : Node) (field_name : String) : Option String :=
  match find_text_forest field_name [soup] with
  | none => none
  | some obj =>
    match obj.sib with
    | some next_sibling => some (get_text next_sibling)
    | none =>
      match obj.nxt with
      | some next_obj => some (get_text next_obj)
      | none => none

/-- get_movie_value with is_people=True: the adjacent tag itself, for
people_to_list to enumerate. -/
def get_movie_value_people (soup : Node) (field_name : String) : Option Node :=
  match find_text_forest field_name [soup] with
  | none => none
  | some obj =>
    match obj.sib with
    | some next_sibling => some next_sibling
    | none =>
      match obj.nxt with
      | some next_obj => some next_obj
      | none => none

/-- people_to_list: on None returns None; otherwise the stripped strings of
the container, dropping entries containing a parenthesis, each with
decorating asterisks stripped.  The comprehension cannot raise on a tag, so
the result is always a list for a present container. -/
def people_to_list : Option Node → Option (List String)
  | none => none
  | some peopleobj =>
    some (((stripped_strings peopleobj).filter
      (fun person => !(str_has_sub person "("))).map
        (fun person => pystrip_char '*' person))

/-! ## Record assembler (scraper.py lines 137-210) -/

/-- The per-movie record: the dict built by get_movie_data (string keys
become fields; the url key is added later by get_all_movie_data, hence
optional with default none). -/
structure MovieDict where
  title : Option String
  rating : String
  genre : String
  distributor : String
  theaters : Option Int
  budget : Option Int
  dom_total_gross : Option Int
  intl_total_gross : Option Int
  oscar_noms : Nat
  oscar_wins : Nat
  release_date : Option PyDate
  closing_date : Option PyDate
  runtime_mins : Option Int
  director : Option (List String)
  writers : Option (List String)
  actors : Option (List String)
  producers : Option (List String)
  url : Option String := none
deriving Repr, DecidableEq

/-- get_movie_data: assemble the record for one movie page.  The only
uncaught failure is soup.find('title') returning None (then .text raises
AttributeError out of the function, caught by the caller); every other
field goes through a normalizer that absorbs its own failures.  Note that
rating, genre and distributor are str(...) of the raw locator result, so
an absent field yields the literal string "None". -/
def get_movie_data (soup : Node) : Option MovieDict :=
  match find_tag_forest (fun nm _ => nm = "title") [soup] with
  | none => none
  | some title_tag =>
    let raw_title := get_text title_tag
    let raw_oscars := get_movie_value soup "Academy Awards"
    some
      { title := clean_title (some raw_title)
        rating := pystr (get_movie_value soup "MPAA Rating")
        genre := pystr (get_movie_value soup "Genre:")
        distributor := pystr (get_movie_value soup "Distributor")
        theaters := theaters_to_int (get_movie_value soup "Widest")
        budget := budget_to_int (get_movie_value soup "Production")
        dom_total_gross := money_to_int (get_movie_value soup "Domestic Total")
        intl_total_gross := money_to_int (get_movie_value soup "Worldwide")
        oscar_noms := noms_from_oscars raw_oscars
        oscar_wins := wins_from_oscars raw_oscars
        release_date := to_date (get_movie_value soup "Release Date")
        closing_date := to_date (get_movie_value soup "Close")
        runtime_mins := runtime_to_minutes (get_movie_value soup "Runtime")
        director := people_to_list (get_movie_value_people soup "Director")
        writers := people_to_list (get_movie_value_people soup "Writer")
        actors := people_to_list (get_movie_value_people soup "Actor")
        producers := people_to_list (get_movie_value_people soup "Producer") }

/-! ## Pagination crawler (scraper.py lines 213-254)

The fetch-and-parse collaborator (get_movie_page = BeautifulSoup of
requests.get(url).text) is a function from a url to a parse tree or an
error: the requests call can raise (network failure, timeout), while the
lenient html parse itself always yields a tree.  The while-loop of
get_movies_from_letters runs without any bound in the source; it is
embedded with a fuel argument, exhaustion of which stands for
non-termination and is mapped to an error distinct from no outcome the
Python loop can produce only by running forever.
-/

/-- Decimal digits of a natural number (kernel-evaluable str(int)). -/
def nat_to_string (n : Nat) : String :=
  String.mk ((Nat.toDigits 10 n))

/-- The index-page address built by get_movies_from_letters for a partition
letter and page number. -/
def index_url (letter : String) (page : Nat) : String :=
  "http://www.boxofficemojo.com/movies/alphabetical.htm?letter=" ++ letter ++
    "&page=" ++ nat_to_string page

/-- The detail-page address root used by get_all_movie_data. -/
def detail_url_base : String := "http://www.boxofficemojo.com"

/-- get_movies_on_page: from a parsed index page, the href of every anchor
inside the div with id "body" whose href contains "movies/?id".  The
chained lookups soup.body, body.find(id="body") and tag["href"] raise
(AttributeError resp. KeyError) when the page lacks the expected shape;
those exceptions escape the function and are modelled as none. -/
def get_movies_on_page (soup : Node) : Option (List String) :=
  match find_tag_forest (fun nm _ => nm = "body") [soup] with
  | none => none
  | some body_tag =>
    match find_tag_forest
        (fun _ attrs => (attrs.find? (fun kv => kv.1 = "id")).map
          (fun kv => kv.2) = some "body") (node_children body_tag) with
    | none => none
    | some body_div =>
      match (tags_in_forest "a" (node_children body_div)).mapM
          (fun t => attr_get t "href") with
      | none => none
      | some hrefs => some (hrefs.filter (fun h => str_has_sub h "movies/?id"))

/-- The composite the loop body of get_movies_from_letters computes for one
index page: fetch, parse, extract links; none when the fetch raised or the
page lacked the expected shape. -/
def fetch_links (fetch : String → Except Unit Node) (url : String) :
    Option (List String) :=
  match fetch url with
  | .error _ => none
  | .ok soup => get_movies_on_page soup

/-- The inner while-loop of get_movies_from_letters for one partition
letter, starting at the given page number: fetch and parse the index page,
extract its movie links, append them, and stop the first time a page
yields zero links.  An exception at any page propagates (error); fuel
exhaustion models the loop running forever. -/
def crawl_letter (fetch : String → Except Unit Node) (letter : String) :
    Nat → Nat → Except Unit (List String)
  | 0, _ => .error ()
  | fuel + 1, page =>
    match fetch_links fetch (index_url letter page) with
    | none => .error ()
    | some movie_urls =>
      if movie_urls.length = 0 then .ok movie_urls
      else
        match crawl_letter fetch letter fuel (page + 1) with
        | .error e => .error e
        | .ok rest => .ok (movie_urls ++ rest)

/-- get_movies_from_letters: crawl the partitions in order, page 1 upward
within each, concatenating every page's links into one list (no
deduplication).  An exception inside any partition propagates and aborts
the whole crawl. -/
def get_movies_from_letters (fetch : String → Except Unit Node) (fuel : Nat) :
    List String → Except Unit (List String)
  | [] => .ok []
  | letter :: rest =>
    match crawl_letter fetch letter fuel 1 with
    | .error e => .error e
    | .ok urls =>
      match get_movies_from_letters fetch fuel rest with
      | .error e => .error e
      | .ok more => .ok (urls ++ more)

/-! ## Orchestrator phase 2 (scraper.py lines 256-272) -/

/-- The body of the per-movie try block in get_all_movie_data: fetch and
parse the detail page, assemble the record and attach the source reference
movie.split("=")[1]; none when any of the three steps raises. -/
def process_movie (fetch : String → Except Unit Node) (movie : String) :
    Option MovieDict :=
  match fetch (detail_url_base ++ movie) with
  | .error _ => none
  | .ok soup =>
    match get_movie_data soup with
    | none => none
    | some data_dict =>
      match (pysplit '=' movie).get? 1 with
      | none => none
      | some ref => some { data_dict with url := some ref }

/-- get_all_movie_data: process every url in the list in order; a movie
whose try block succeeds appends its record, any exception inside the try
block appends the full url to the failure list, and the loop always runs
to the end of the list. -/
def get_all_movie_data (fetch : String → Except Unit Node) :
    List String → List MovieDict × List String
  | [] => ([], [])
  | movie :: rest =>
    let url := detail_url_base ++ movie
    let (all_movie_data, failed_urls) := get_all_movie_data fetch rest
    match process_movie fetch movie with
    | some data_dict => (data_dict :: all_movie_data, failed_urls)
    | none => (all_movie_data, url :: failed_urls)

/-! ## Proof infrastructure -/

/-- Decidable equality of Except results, for evaluating concrete crawl
outcomes. -/
instance exceptDecEq {ε α : Type} [DecidableEq ε] [DecidableEq α] :
    DecidableEq (Except ε α) := fun a b =>
  match a, b with
  | .error e, .error f =>
    match decEq e f with
    | isTrue h => isTrue (by rw [h])
    | isFalse h => isFalse (fun hh => by cases hh; exact h rfl)
  | .error _, .ok _ => isFalse (fun hh => by cases hh)
  | .ok _, .error _ => isFalse (fun hh => by cases hh)
  | .ok x, .ok y =>
    match decEq x y with
    | isTrue h => isTrue (by rw [h])
    | isFalse h => isFalse (fun hh => by cases hh; exact h rfl)

/-- A text node, as opposed to a tag. -/
def is_textnode : Node → Bool
  | .text _ => true
  | .tag _ _ _ => false

mutual
/-- Decidable equality of nodes (the automatic derivation does not handle
the nested list of children). -/
def node_dec_eq : (a b : Node) → Decidable (a = b)
  | .text s, .text t =>
    match decEq s t with
    | isTrue h => isTrue (by rw [h])
    | isFalse h => isFalse (by intro hh; injection hh; exact h (by assumption))
  | .text _, .tag _ _ _ => isFalse (by intro hh; exact Node.noConfusion hh)
  | .tag _ _ _, .text _ => isFalse (by intro hh; exact Node.noConfusion hh)
  | .tag n1 a1 c1, .tag n2 a2 c2 =>
    match decEq n1 n2, decEq a1 a2, forest_dec_eq c1 c2 with
    | isTrue h1, isTrue h2, isTrue h3 => isTrue (by rw [h1, h2, h3])
    | isFalse h1, _, _ =>
      isFalse (by intro hh; injection hh; exact h1 (by assumption))
    | _, isFalse h2, _ =>
      isFalse (by intro hh; injection hh; exact h2 (by assumption))
    | _, _, isFalse h3 =>
      isFalse (by intro hh; injection hh; exact h3 (by assumption))

/-- Decidable equality of forests. -/
def forest_dec_eq : (xs ys : List Node) → Decidable (xs = ys)
  | [], [] => isTrue rfl
  | [], _ :: _ => isFalse (by intro hh; exact List.noConfusion hh)
  | _ :: _, [] => isFalse (by intro hh; exact List.noConfusion hh)
  | x :: xs, y :: ys =>
    match node_dec_eq x y, forest_dec_eq xs ys with
    | isTrue h1, isTrue h2 => isTrue (by rw [h1, h2])
    | isFalse h1, _ =>
      isFalse (by intro hh; injection hh; exact h1 (by assumption))
    | _, isFalse h2 =>
      isFalse (by intro hh; injection hh; exact h2 (by assumption))
end

instance : DecidableEq Node := node_dec_eq

/-! ## Concrete fixtures

Small concrete sites, pages and records used to instantiate the theorems
below on explicit inputs. -/

/-- An index page carrying the given hrefs as anchors inside the div with
id "body". -/
def index_page (links : List String) : Node :=
  Node.tag "html" [] [Node.tag "body" [] [Node.tag "div" [("id", "body")]
    (links.map (fun h => Node.tag "a" [("href", h)] [Node.text "M"]))]]

/-- Two-partition site for the C1 witness: partition A is empty from its
very first page, partition B has one movie on page 1 and none on page 2. -/
def fetch_c1 : String → Except Unit Node := fun url =>
  if url = index_url "A" 1 then .ok (index_page [])
  else if url = index_url "B" 1 then .ok (index_page ["/movies/?id=b.htm"])
  else if url = index_url "B" 2 then .ok (index_page [])
  else .error ()

/-- Per-page links of the C1 witness site. -/
def lk_c1 : String → Nat → List String := fun l p =>
  if l = "B" && p = 1 then ["/movies/?id=b.htm"] else []

/-- First zero-link page of each partition of the C1 witness site. -/
def e_c1 : String → Nat := fun l => if l = "B" then 2 else 1

/-- Two-partition site for C2: the same movie link appears on page 1 of
partition A and on page 1 of partition B; page 2 of each is empty. -/
def fetch_c2 : String → Except Unit Node := fun url =>
  if url = index_url "A" 1 then .ok (index_page ["/movies/?id=dup.htm"])
  else if url = index_url "A" 2 then .ok (index_page [])
  else if url = index_url "B" 1 then .ok (index_page ["/movies/?id=dup.htm"])
  else if url = index_url "B" 2 then .ok (index_page [])
  else .error ()

/-- Per-page links of the C2 site. -/
def lk_c2 : String → Nat → List String := fun _ p =>
  if p = 1 then ["/movies/?id=dup.htm"] else []

/-- First zero-link page of each partition of the C2 site. -/
def e_c2 : String → Nat := fun _ => 2

/-- Site for C4: fetching page 1 of partition A raises (network failure);
partition B is healthy with one movie on page 1 and an empty page 2. -/
def fetch_c4 : String → Except Unit Node := fun url =>
  if url = index_url "B" 1 then .ok (index_page ["/movies/?id=b.htm"])
  else if url = index_url "B" 2 then .ok (index_page [])
  else .error ()

/-- Detail page for the C10 witness: a well-formed page with a title. -/
def doc_c10 : Node :=
  Node.tag "html" []
    [Node.tag "head" [] [Node.tag "title" [] [Node.text "Foo (2001)"]]]

/-- Fetch collaborator for the C10 witness: serves doc_c10 at the one
detail url. -/
def fetch_c10 : String → Except Unit Node := fun url =>
  if url = detail_url_base ++ "/movies/noref.htm" then .ok doc_c10
  else .error ()

/-- The record get_movie_data assembles from doc_c10. -/
def d_c10 : MovieDict :=
  { title := some "Foo", rating := "None", genre := "None",
    distributor := "None", theaters := none, budget := none,
    dom_total_gross := none, intl_total_gross := none, oscar_noms := 0,
    oscar_wins := 0, release_date := none, closing_date := none,
    runtime_mins := none, director := none, writers := none, actors := none,
    producers := none, url := none }

/-- Page for the C9 witness: a title and unrelated text, no rating, genre
or distributor labels anywhere. -/
def doc_c9 : Node :=
  Node.tag "html" []
    [Node.tag "head" [] [Node.tag "title" [] [Node.text "Bar (1999)"]],
     Node.tag "body" [] [Node.text "an otherwise empty page"]]

/-- The record get_movie_data assembles from doc_c9. -/
def d_c9 : MovieDict :=
  { title := some "Bar", rating := "None", genre := "None",
    distributor := "None", theaters := none, budget := none,
    dom_total_gross := none, intl_total_gross := none, oscar_noms := 0,
    oscar_wins := 0, release_date := none, closing_date := none,
    runtime_mins := none, director := none, writers := none, actors := none,
    producers := none, url := none }

/-- Document for the C5 counterexample: the matched label text node has an
immediate next sibling that is itself a bare text node ("Drama"), followed
by a tag containing "Action". -/
def doc_c5 : Node :=
  Node.tag "p" [] [Node.text "Genre:", Node.text "Drama",
    Node.tag "b" [] [Node.text "Action"]]

/-- Simultaneous induction over nodes and forests, with the nested list
structure made explicit. -/
theorem node_forest_induction (P : Node → Prop) (Q : List Node → Prop)
    (htext : ∀ s, P (.text s))
    (htag : ∀ nm attrs cs, Q cs → P (.tag nm attrs cs))
    (hnil : Q [])
    (hcons : ∀ c rest, P c → Q rest → Q (c :: rest)) :
    (∀ n, P n) ∧ (∀ f, Q f) := by
  have key : ∀ k, (∀ n : Node, sizeOf n ≤ k → P n) ∧
      (∀ f : List Node, sizeOf f ≤ k → Q f) := by
    intro k
    induction k with
    | zero =>
      constructor
      · intro n hn
        cases n with
        | text s => exact htext s
        | tag nm attrs cs => simp at hn
      · intro f hf
        cases f with
        | nil => exact hnil
        | cons c rest => simp at hf
    | succ k ih =>
      constructor
      · intro n hn
        cases n with
        | text s => exact htext s
        | tag nm attrs cs =>
          refine htag nm attrs cs (ih.2 cs ?_)
          have := Node.tag.sizeOf_spec nm attrs cs
          omega
      · intro f hf
        cases f with
        | nil => exact hnil
        | cons c rest =>
          have hs := List.cons.sizeOf_spec c rest
          exact hcons c rest (ih.1 c (by omega)) (ih.2 rest (by omega))
  exact ⟨fun n => (key (sizeOf n)).1 n le_rfl, fun f => (key (sizeOf f)).2 f le_rfl⟩

/-- If no text node of a subtree or forest contains the pattern, the text
search misses. -/
theorem find_text_no_match (pat : String) :
    (∀ n : Node, (∀ s ∈ texts n, str_has_sub s pat = false) →
      find_text_node pat n = .miss) ∧
    (∀ f : List Node, (∀ s ∈ texts_forest f, str_has_sub s pat = false) →
      find_text_forest pat f = none) := by
  refine node_forest_induction
    (fun n => (∀ s ∈ texts n, str_has_sub s pat = false) →
      find_text_node pat n = .miss)
    (fun f => (∀ s ∈ texts_forest f, str_has_sub s pat = false) →
      find_text_forest pat f = none) ?_ ?_ ?_ ?_
  · intro s h
    have hs : str_has_sub s pat = false := h s (by simp [texts])
    simp [find_text_node, hs]
  · intro nm attrs cs ih h
    have hcs : find_text_forest pat cs = none := ih (by simpa [texts] using h)
    simp [find_text_node, hcs]
  · intro _
    simp [find_text_forest]
  · intro c rest ihc ihrest h
    have hc : find_text_node pat c = .miss := by
      refine ihc ?_
      intro s hs
      exact h s (by simp [texts_forest]; exact Or.inl hs)
    have hrest : find_text_forest pat rest = none := by
      refine ihrest ?_
      intro s hs
      exact h s (by simp [texts_forest]; exact Or.inr hs)
    simp [find_text_forest, hc, hrest]

/-- texts_forest distributes over append. -/
theorem texts_forest_append (xs ys : List Node) :
    texts_forest (xs ++ ys) = texts_forest xs ++ texts_forest ys := by
  induction xs with
  | nil => simp [texts_forest]
  | cons c rest ih => simp [texts_forest, ih]

/-- The text search skips a prefix none of whose text nodes matches. -/
theorem find_text_forest_skip (pat : String) (xs ys : List Node)
    (h : ∀ s ∈ texts_forest xs, str_has_sub s pat = false) :
    find_text_forest pat (xs ++ ys) = find_text_forest pat ys := by
  induction xs with
  | nil => simp
  | cons c rest ih =>
    have hc : find_text_node pat c = .miss := by
      refine (find_text_no_match pat).1 c ?_
      intro s hs
      exact h s (by simp [texts_forest]; exact Or.inl hs)
    have hrest := ih (by intro s hs; exact h s (by simp [texts_forest]; exact Or.inr hs))
    simp [find_text_forest, hc, hrest]

/-- The first tag of a forest skips a prefix of text nodes. -/
theorem first_tag_skip (xs ys : List Node)
    (h : ∀ n ∈ xs, is_textnode n = true) :
    first_tag_in_forest (xs ++ ys) = first_tag_in_forest ys := by
  induction xs with
  | nil => simp
  | cons c rest ih =>
    cases c with
    | text s =>
      simp only [List.cons_append, first_tag_in_forest]
      exact ih (by intro n hn; exact h n (by simp [hn]))
    | tag nm attrs cs =>
      have := h (Node.tag nm attrs cs) (by simp)
      simp [is_textnode] at this

/-- A forest of text nodes has no first tag. -/
theorem first_tag_none (xs : List Node) (h : ∀ n ∈ xs, is_textnode n = true) :
    first_tag_in_forest xs = none := by
  have := first_tag_skip xs [] h
  simpa using this

/-- The inner loop, started at any page at or before the first zero-link
page e, returns exactly the links of the pages before e, provided every
fetched page up to e parses, pages before e are nonempty, page e is empty,
and the fuel covers the remaining pages. -/
theorem crawl_letter_spec (fetch : String → Except Unit Node) (letter : String)
    (lk : Nat → List String) (e : Nat)
    (h1 : ∀ p, p < e → fetch_links fetch (index_url letter (p + 1)) = some (lk (p + 1)))
    (h2 : lk e = [])
    (h3 : ∀ p, p < e - 1 → lk (p + 1) ≠ []) :
    ∀ fuel page, 1 ≤ page → page ≤ e → e < fuel + page →
      crawl_letter fetch letter fuel page =
        .ok (((List.range' page (e - page)).map lk).flatten) := by
  intro fuel
  induction fuel with
  | zero => intro page hp hpe hf; omega
  | succ fuel ih =>
    intro page hp hpe hf
    have hfl : fetch_links fetch (index_url letter page) = some (lk page) := by
      have h := h1 (page - 1) (by omega)
      have hpp : page - 1 + 1 = page := by omega
      rwa [hpp] at h
    rcases Nat.lt_or_ge page e with hlt | hge
    · have hne : lk page ≠ [] := by
        have h := h3 (page - 1) (by omega)
        have hpp : page - 1 + 1 = page := by omega
        rwa [hpp] at h
      have hlen : ((lk page).length = 0) = False := by
        simp [List.length_eq_zero, hne]
      have hrec := ih (page + 1) (by omega) (by omega) (by omega)
      have hrange : e - page = (e - (page + 1)) + 1 := by omega
      simp only [crawl_letter, hfl, hlen, if_false, hrec]
      rw [hrange, List.range'_succ]
      simp
    · have hpe' : page = e := by omega
      subst hpe'
      simp [crawl_letter, hfl, h2]

/-- The full crawl over a letter list, under the same per-letter
assumptions, succeeds with the concatenation, letter by letter and page by
page, of the links of the pages before each letter's first zero-link
page. -/
theorem get_movies_from_letters_spec (fetch : String → Except Unit Node)
    (lk : String → Nat → List String) (e : String → Nat) (letters : List String)
    (fuel : Nat)
    (h0 : ∀ l ∈ letters, 1 ≤ e l)
    (h1 : ∀ l ∈ letters, ∀ p, p < e l →
      fetch_links fetch (index_url l (p + 1)) = some (lk l (p + 1)))
    (h2 : ∀ l ∈ letters, lk l (e l) = [])
    (h3 : ∀ l ∈ letters, ∀ p, p < e l - 1 → lk l (p + 1) ≠ [])
    (hfuel : ∀ l ∈ letters, e l ≤ fuel) :
    get_movies_from_letters fetch fuel letters =
      .ok ((letters.map (fun l =>
        ((List.range' 1 (e l - 1)).map (lk l)).flatten)).flatten) := by
  induction letters with
  | nil => simp [get_movies_from_letters]
  | cons letter rest ih =>
    have hcl := crawl_letter_spec fetch letter (lk letter) (e letter)
      (h1 letter (by simp)) (h2 letter (by simp)) (h3 letter (by simp))
      fuel 1 le_rfl (h0 letter (by simp))
      (by have := hfuel letter (by simp); omega)
    have hrest := ih
      (by intro l hl; exact h0 l (by simp [hl]))
      (by intro l hl; exact h1 l (by simp [hl]))
      (by intro l hl; exact h2 l (by simp [hl]))
      (by intro l hl; exact h3 l (by simp [hl]))
      (by intro l hl; exact hfuel l (by simp [hl]))
    simp only [get_movies_from_letters, hcl, hrest, List.map_cons, List.flatten_cons]

/-- If the loop reaches a page whose fetch or parse fails (every earlier
page fetched fine and was nonempty), the exception escapes: the partition
crawl evaluates to an error, never to a normal result. -/
theorem crawl_letter_error (fetch : String → Except Unit Node) (letter : String)
    (lk : Nat → List String) (pfail : Nat)
    (h1 : ∀ p, p < pfail - 1 →
      fetch_links fetch (index_url letter (p + 1)) = some (lk (p + 1)))
    (h3 : ∀ p, p < pfail - 1 → lk (p + 1) ≠ [])
    (hfail : fetch_links fetch (index_url letter pfail) = none) :
    ∀ fuel page, 1 ≤ page → page ≤ pfail → pfail < fuel + page →
      crawl_letter fetch letter fuel page = .error () := by
  intro fuel
  induction fuel with
  | zero => intro page hp hpe hf; omega
  | succ fuel ih =>
    intro page hp hpe hf
    rcases Nat.lt_or_ge page pfail with hlt | hge
    · have hfl : fetch_links fetch (index_url letter page) = some (lk page) := by
        have h := h1 (page - 1) (by omega)
        have hpp : page - 1 + 1 = page := by omega
        rwa [hpp] at h
      have hne : lk page ≠ [] := by
        have h := h3 (page - 1) (by omega)
        have hpp : page - 1 + 1 = page := by omega
        rwa [hpp] at h
      have hlen : ((lk page).length = 0) = False := by
        simp [List.length_eq_zero, hne]
      have hrec := ih (page + 1) (by omega) (by omega) (by omega)
      simp [crawl_letter, hfl, hlen, hrec]
    · have hpe' : page = pfail := by omega
      subst hpe'
      simp [crawl_letter, hfail]

/-! ## Claim C1 -/

/-- C1: for every sequence of partition keys whose partitions each have a
first zero-link index page (page e l, every earlier page fetching and
parsing fine with a nonempty link list), the URL-discovery crawl
terminates with a normal, non-error result that is the same for every
sufficient fuel bound: each partition is paged exactly up to its first
zero-link page — the only per-partition stopping condition — and
contributes exactly the links of its earlier pages, and a partition whose
very first page has zero links (e l = 1) contributes zero URLs without
being an error while the crawl proceeds through the remaining
partitions. -/
theorem C1_crawl_terminates (fetch : String → Except Unit Node)
    (lk : String → Nat → List String) (e : String → Nat) (letters : List String)
    (h0 : ∀ l ∈ letters, 1 ≤ e l)
    (h1 : ∀ l ∈ letters, ∀ p, p < e l →
      fetch_links fetch (index_url l (p + 1)) = some (lk l (p + 1)))
    (h2 : ∀ l ∈ letters, lk l (e l) = [])
    (h3 : ∀ l ∈ letters, ∀ p, p < e l - 1 → lk l (p + 1) ≠ []) :
    (∀ fuel, (∀ l ∈ letters, e l ≤ fuel) →
      get_movies_from_letters fetch fuel letters =
        .ok ((letters.map (fun l =>
          ((List.range' 1 (e l - 1)).map (lk l)).flatten)).flatten)) ∧
    (∀ l, e l = 1 → ((List.range' 1 (e l - 1)).map (lk l)).flatten = []) := by
  constructor
  · intro fuel hfuel
    exact get_movies_from_letters_spec fetch lk e letters fuel h0 h1 h2 h3 hfuel
  · intro l hl
    simp [hl]

/-- Witness for C1: on the concrete two-partition site the crawl
terminates with exactly partition B's one movie url, partition A (empty
from page 1) contributing nothing. -/
theorem C1_crawl_terminates_witness :
    get_movies_from_letters fetch_c1 2 ["A", "B"] =
      .ok (((["A", "B"].map (fun l =>
        ((List.range' 1 (e_c1 l - 1)).map (lk_c1 l)).flatten)).flatten)) ∧
    ((["A", "B"].map (fun l =>
      ((List.range' 1 (e_c1 l - 1)).map (lk_c1 l)).flatten)).flatten) =
        ["/movies/?id=b.htm"] := by
  have h := C1_crawl_terminates fetch_c1 lk_c1 e_c1 ["A", "B"]
    (by decide) (by decide) (by decide) (by decide)
  exact ⟨h.1 2 (by decide), by decide⟩

/-! ## Claim C2 -/

/-- C2 counterexample: a detail link occurring on index pages of two
partitions appears twice in the discovery result, not exactly once — the
crawl accumulates into a plain list with no deduplication. -/
theorem C2_dedup_counterexample :
    get_movies_from_letters fetch_c2 2 ["A", "B"] =
      .ok ["/movies/?id=dup.htm", "/movies/?id=dup.htm"] ∧
    List.count "/movies/?id=dup.htm"
      ["/movies/?id=dup.htm", "/movies/?id=dup.htm"] = 2 ∧ (2 : Nat) ≠ 1 := by
  refine ⟨by decide, by decide, by decide⟩

/-- C2 (amended): the URL-discovery crawl accumulates the matching detail
links of all fetched index pages of all partitions into one list by plain
concatenation, preserving order and multiplicity: the number of occurrences
of any url in the result equals the total number of its occurrences over
the fetched pages (no deduplication and no normalization). -/
theorem C2_accumulation (fetch : String → Except Unit Node)
    (lk : String → Nat → List String) (e : String → Nat) (letters : List String)
    (h0 : ∀ l ∈ letters, 1 ≤ e l)
    (h1 : ∀ l ∈ letters, ∀ p, p < e l →
      fetch_links fetch (index_url l (p + 1)) = some (lk l (p + 1)))
    (h2 : ∀ l ∈ letters, lk l (e l) = [])
    (h3 : ∀ l ∈ letters, ∀ p, p < e l - 1 → lk l (p + 1) ≠ [])
    (fuel : Nat) (hfuel : ∀ l ∈ letters, e l ≤ fuel) (x : String) :
    get_movies_from_letters fetch fuel letters =
      .ok ((letters.map (fun l =>
        ((List.range' 1 (e l - 1)).map (lk l)).flatten)).flatten) ∧
    ((letters.map (fun l =>
        ((List.range' 1 (e l - 1)).map (lk l)).flatten)).flatten).count x =
      (letters.map (fun l =>
        ((List.range' 1 (e l - 1)).map (fun p => (lk l p).count x)).sum)).sum := by
  refine ⟨get_movies_from_letters_spec fetch lk e letters fuel h0 h1 h2 h3 hfuel, ?_⟩
  simp only [List.count_flatten, List.map_map, Function.comp_def]

/-- Witness for C2 on the concrete duplicate-link site: the accumulated
list is exactly the page-by-page concatenation and the duplicated link is
counted once per occurrence. -/
theorem C2_accumulation_witness :
    get_movies_from_letters fetch_c2 2 ["A", "B"] =
      .ok ((["A", "B"].map (fun l =>
        ((List.range' 1 (e_c2 l - 1)).map (lk_c2 l)).flatten)).flatten) ∧
    ((["A", "B"].map (fun l =>
        ((List.range' 1 (e_c2 l - 1)).map (lk_c2 l)).flatten)).flatten).count
          "/movies/?id=dup.htm" =
      (["A", "B"].map (fun l =>
        ((List.range' 1 (e_c2 l - 1)).map
          (fun p => (lk_c2 l p).count "/movies/?id=dup.htm")).sum)).sum :=
  C2_accumulation fetch_c2 lk_c2 e_c2 ["A", "B"]
    (by decide) (by decide) (by decide) (by decide) 2 (by decide)
    "/movies/?id=dup.htm"

/-! ## Claim C4 -/

/-- C4 counterexample: a fetch failure in partition A is not handled as a
transient, retryable error — with fuel to spare (3, matching the claimed
retry budget) the whole crawl evaluates to an error and even healthy
partition B's movie, recovered when B is crawled alone, is lost. -/
theorem C4_no_retry_counterexample :
    get_movies_from_letters fetch_c4 3 ["A", "B"] = .error () ∧
    get_movies_from_letters fetch_c4 3 ["B"] = .ok ["/movies/?id=b.htm"] := by
  exact ⟨by decide, by decide⟩

/-- C4 (amended): a fetch or parse failure mid-partition is indeed never
treated as the zero-links termination condition — the partition crawl
evaluates to an error, never to a normal link-list result — but it is not
retried or contained either: the exception propagates out of the loop and
aborts the entire discovery crawl. -/
theorem C4_failure_aborts (fetch : String → Except Unit Node) (letter : String)
    (lk : Nat → List String) (rest : List String) (pfail fuel : Nat)
    (hp : 1 ≤ pfail) (hf : pfail ≤ fuel)
    (h1 : ∀ p, p < pfail - 1 →
      fetch_links fetch (index_url letter (p + 1)) = some (lk (p + 1)))
    (h3 : ∀ p, p < pfail - 1 → lk (p + 1) ≠ [])
    (hfail : fetch_links fetch (index_url letter pfail) = none) :
    crawl_letter fetch letter fuel 1 = .error () ∧
    (∀ links, crawl_letter fetch letter fuel 1 ≠ .ok links) ∧
    get_movies_from_letters fetch fuel (letter :: rest) = .error () := by
  have hc := crawl_letter_error fetch letter lk pfail h1 h3 hfail fuel 1
    le_rfl hp (by omega)
  refine ⟨hc, ?_, ?_⟩
  · intro links h
    rw [hc] at h
    exact Except.noConfusion h
  · simp [get_movies_from_letters, hc]

/-- Witness for C4: on the concrete site whose partition A fails at page 1,
the partition crawl errors and the whole two-partition crawl errors. -/
theorem C4_failure_aborts_witness :
    crawl_letter fetch_c4 "A" 3 1 = .error () ∧
    (∀ links, crawl_letter fetch_c4 "A" 3 1 ≠ .ok links) ∧
    get_movies_from_letters fetch_c4 3 ["A", "B"] = .error () :=
  C4_failure_aborts fetch_c4 "A" (fun _ => []) ["B"] 1 3
    (by decide) (by decide) (by decide) (by decide) (by decide)

/-! ## Claim C8 -/

/-- C8: the per-URL processing phase never aborts: for every fetch
collaborator and input url list it runs to the end, and each url produces
exactly one outcome — its record exactly when its try block succeeds,
otherwise exactly one failure entry carrying its full url — with the two
output lengths summing to the input length. -/
theorem C8_exactly_one_outcome (fetch : String → Except Unit Node)
    (url_list : List String) :
    (get_all_movie_data fetch url_list).1 =
        url_list.filterMap (process_movie fetch) ∧
    (get_all_movie_data fetch url_list).2 =
        (url_list.filter (fun m => (process_movie fetch m).isNone)).map
          (fun m => detail_url_base ++ m) ∧
    (get_all_movie_data fetch url_list).1.length +
        (get_all_movie_data fetch url_list).2.length = url_list.length := by
  induction url_list with
  | nil => exact ⟨rfl, rfl, rfl⟩
  | cons movie rest ih =>
    obtain ⟨ih1, ih2, ih3⟩ := ih
    cases hp : process_movie fetch movie with
    | some d =>
      refine ⟨?_, ?_, ?_⟩
      · simp [get_all_movie_data, hp, List.filterMap_cons, ih1]
      · simp [get_all_movie_data, hp, List.filter_cons, ih2]
      · simp only [get_all_movie_data, hp]
        simp only [List.length_cons]
        omega
    | none =>
      refine ⟨?_, ?_, ?_⟩
      · simp [get_all_movie_data, hp, List.filterMap_cons, ih1]
      · simp [get_all_movie_data, hp, List.filter_cons, ih2]
      · simp only [get_all_movie_data, hp]
        simp only [List.length_cons]
        omega

/-! ## Claim C10 -/

/-- Splitting at a character that does not occur leaves the list whole. -/
theorem chars_split_no_sep (sep : Char) (cs : List Char)
    (h : ∀ c ∈ cs, c ≠ sep) : chars_split sep cs = [cs] := by
  induction cs with
  | nil => rfl
  | cons c rest ih =>
    have hc : (c = sep) = False := by simp [h c (by simp)]
    simp [chars_split, hc, ih (fun d hd => h d (by simp [hd]))]

/-- C10: a detail url without an equals sign is recorded as a failure even
though its fetch, parse and record assembly all succeed: the source
reference movie.split("=")[1] raises inside the same try block, the
assembled record is discarded, and the url joins the failure list. -/
theorem C10_no_equals_fails (fetch : String → Except Unit Node) (movie : String)
    (soup : Node) (d : MovieDict)
    (hnoeq : ∀ c ∈ movie.toList, c ≠ '=')
    (hfetch : fetch (detail_url_base ++ movie) = .ok soup)
    (hdata : get_movie_data soup = some d) :
    process_movie fetch movie = none ∧
    get_all_movie_data fetch [movie] = ([], [detail_url_base ++ movie]) := by
  have hsplit : pysplit '=' movie = [movie] := by
    unfold pysplit
    rw [chars_split_no_sep '=' movie.toList hnoeq]
    obtain ⟨data⟩ := movie
    rfl
  have hproc : process_movie fetch movie = none := by
    unfold process_movie
    rw [hfetch]
    simp [hdata, hsplit]
  exact ⟨hproc, by simp [get_all_movie_data, hproc]⟩

/-- Witness for C10: the url "/movies/noref.htm" (no equals sign) fetches
and assembles fine yet lands in the failure list. -/
theorem C10_no_equals_fails_witness :
    process_movie fetch_c10 "/movies/noref.htm" = none ∧
    get_all_movie_data fetch_c10 ["/movies/noref.htm"] =
      ([], [detail_url_base ++ "/movies/noref.htm"]) :=
  C10_no_equals_fails fetch_c10 "/movies/noref.htm" doc_c10 d_c10
    (by decide) (by decide) (by decide)

/-! ## Claim C9 -/

/-- C9: whenever the rating, genre or distributor label matches no text
node of the page, the assembled record stores the literal string "None"
for that field — str() applied to the locator's absent result — so the
absence of these three fields is not observable as an absent value in the
record. -/
theorem C9_absent_fields_stringified (soup : Node)
    (hr : ∀ s ∈ texts soup, str_has_sub s "MPAA Rating" = false)
    (hg : ∀ s ∈ texts soup, str_has_sub s "Genre:" = false)
    (hd : ∀ s ∈ texts soup, str_has_sub s "Distributor" = false) :
    ∀ d : MovieDict, get_movie_data soup = some d →
      d.rating = "None" ∧ d.genre = "None" ∧ d.distributor = "None" := by
  have hnone : ∀ pat, (∀ s ∈ texts soup, str_has_sub s pat = false) →
      get_movie_value soup pat = none := by
    intro pat h
    unfold get_movie_value
    rw [(find_text_no_match pat).2 [soup]
      (by simpa [texts_forest] using h)]
  have hvr := hnone "MPAA Rating" hr
  have hvg := hnone "Genre:" hg
  have hvd := hnone "Distributor" hd
  intro d hdata
  unfold get_movie_data at hdata
  cases hfind : find_tag_forest (fun nm _ => nm = "title") [soup] with
  | none => rw [hfind] at hdata; exact absurd hdata (by simp)
  | some tt =>
    rw [hfind] at hdata
    simp only [Option.some.injEq] at hdata
    rw [← hdata]
    simp [hvr, hvg, hvd, pystr]

/-- Witness for C9 on the concrete label-free page. -/
theorem C9_absent_fields_stringified_witness :
    d_c9.rating = "None" ∧ d_c9.genre = "None" ∧ d_c9.distributor = "None" :=
  C9_absent_fields_stringified doc_c9 (by decide) (by decide) (by decide)
    d_c9 (by decide)

/-! ## Claim C5 -/

/-- C5 counterexample: the locator does not return the content of the
matched node's immediate next sibling — the text sibling "Drama" is
skipped (BeautifulSoup sibling search without a string criterion matches
tags only) and the locator returns "Action" from the first following
sibling tag. -/
theorem C5_sibling_counterexample :
    get_movie_value doc_c5 "Genre:" = some "Action" ∧ "Action" ≠ "Drama" :=
  ⟨by decide, by decide⟩

/-- C5 (amended): the locator returns absent when no text node matches the
pattern; when a text node matches, the first one in document order is
selected and the adjacent content is read from the first following sibling
element — bare text siblings are skipped — with a fallback to the next
element in document order, and absent when neither exists; multi-entity
mode returns the element itself and scalar mode its flattened text.  The
three conjuncts cover: a pattern matching no text node; a first match at
its own level with text-only nodes (mid) between it and its sibling
elements (post supplies them); and a first match whose own level has no
following element (mid2 text-only closes the enclosing tag), where the
value falls back to the next element in document order (post, one level
up). -/
theorem C5_locator (pat : String) :
    (∀ doc : Node, (∀ s ∈ texts doc, str_has_sub s pat = false) →
      get_movie_value doc pat = none ∧ get_movie_value_people doc pat = none) ∧
    (∀ nm attrs pre mid post lbl,
      (∀ s ∈ texts_forest pre, str_has_sub s pat = false) →
      str_has_sub lbl pat = true →
      (∀ n ∈ mid, is_textnode n = true) →
      get_movie_value
          (Node.tag nm attrs (pre ++ Node.text lbl :: (mid ++ post))) pat =
        (first_tag_in_forest post).map get_text ∧
      get_movie_value_people
          (Node.tag nm attrs (pre ++ Node.text lbl :: (mid ++ post))) pat =
        first_tag_in_forest post) ∧
    (∀ nm attrs nm2 attrs2 pre pre2 mid2 post lbl,
      (∀ s ∈ texts_forest pre, str_has_sub s pat = false) →
      (∀ s ∈ texts_forest pre2, str_has_sub s pat = false) →
      str_has_sub lbl pat = true →
      (∀ n ∈ mid2, is_textnode n = true) →
      get_movie_value
          (Node.tag nm attrs
            (pre ++ Node.tag nm2 attrs2 (pre2 ++ Node.text lbl :: mid2) :: post))
          pat =
        (first_tag_in_forest post).map get_text ∧
      get_movie_value_people
          (Node.tag nm attrs
            (pre ++ Node.tag nm2 attrs2 (pre2 ++ Node.text lbl :: mid2) :: post))
          pat =
        first_tag_in_forest post) := by
  refine ⟨?_, ?_, ?_⟩
  · intro doc h
    have hnone : find_text_forest pat [doc] = none :=
      (find_text_no_match pat).2 [doc] (by simpa [texts_forest] using h)
    exact ⟨by unfold get_movie_value; rw [hnone],
           by unfold get_movie_value_people; rw [hnone]⟩
  · intro nm attrs pre mid post lbl hpre hlbl hmid
    have hinner : find_text_forest pat (pre ++ Node.text lbl :: (mid ++ post)) =
        some (Found.mk (first_tag_in_forest post) (first_tag_in_forest post)) := by
      rw [find_text_forest_skip pat pre _ hpre]
      simp only [find_text_forest, find_text_node, hlbl, if_true]
      rw [first_tag_skip mid post hmid]
    have hdoc : find_text_forest pat
        [Node.tag nm attrs (pre ++ Node.text lbl :: (mid ++ post))] =
        some (Found.mk (first_tag_in_forest post) (first_tag_in_forest post)) := by
      simp only [find_text_forest, find_text_node, hinner]
      cases hft : first_tag_in_forest post <;> simp [first_tag_in_forest]
    cases hft : first_tag_in_forest post with
    | some t =>
      rw [hft] at hdoc
      exact ⟨by unfold get_movie_value; rw [hdoc]; rfl,
             by unfold get_movie_value_people; rw [hdoc]⟩
    | none =>
      rw [hft] at hdoc
      exact ⟨by unfold get_movie_value; rw [hdoc]; rfl,
             by unfold get_movie_value_people; rw [hdoc]⟩
  · intro nm attrs nm2 attrs2 pre pre2 mid2 post lbl hpre hpre2 hlbl hmid2
    have hinner2 : find_text_forest pat (pre2 ++ Node.text lbl :: mid2) =
        some (Found.mk none none) := by
      rw [find_text_forest_skip pat pre2 _ hpre2]
      simp only [find_text_forest, find_text_node, hlbl, if_true]
      rw [first_tag_none mid2 hmid2]
    have houter : find_text_forest pat
        (pre ++ Node.tag nm2 attrs2 (pre2 ++ Node.text lbl :: mid2) :: post) =
        some (Found.mk none (first_tag_in_forest post)) := by
      rw [find_text_forest_skip pat pre _ hpre]
      simp only [find_text_forest, find_text_node, hinner2]
    have hdoc : find_text_forest pat
        [Node.tag nm attrs
          (pre ++ Node.tag nm2 attrs2 (pre2 ++ Node.text lbl :: mid2) :: post)] =
        some (Found.mk none (first_tag_in_forest post)) := by
      simp only [find_text_forest, find_text_node, houter]
      cases hft : first_tag_in_forest post <;> simp [first_tag_in_forest]
    cases hft : first_tag_in_forest post with
    | some t =>
      rw [hft] at hdoc
      exact ⟨by unfold get_movie_value; rw [hdoc]; rfl,
             by unfold get_movie_value_people; rw [hdoc]⟩
    | none =>
      rw [hft] at hdoc
      exact ⟨by unfold get_movie_value; rw [hdoc]; rfl,
             by unfold get_movie_value_people; rw [hdoc]⟩

/-- Witness for C5 on the spec's own example shape: a text node "Genre:"
followed by a sibling tag containing "Drama" yields "Drama" in scalar mode
and the tag itself in multi-entity mode. -/
theorem C5_locator_witness :
    get_movie_value
        (Node.tag "p" []
          ([] ++ Node.text "Genre:" :: ([] ++ [Node.tag "b" [] [Node.text "Drama"]])))
        "Genre:" =
      (first_tag_in_forest [Node.tag "b" [] [Node.text "Drama"]]).map get_text ∧
    get_movie_value_people
        (Node.tag "p" []
          ([] ++ Node.text "Genre:" :: ([] ++ [Node.tag "b" [] [Node.text "Drama"]])))
        "Genre:" =
      first_tag_in_forest [Node.tag "b" [] [Node.text "Drama"]] :=
  (C5_locator "Genre:").2.1 "p" [] [] [] [Node.tag "b" [] [Node.text "Drama"]]
    "Genre:" (by decide) (by decide) (by decide)

/-! ## Claim C3 -/

/-- C3 counterexample: on the spec's example awards sentence the wins
normalizer returns 0, not the claimed 1 — the clause after the comma is
" including Best Picture.", whose second space-separated token "best"
fails the word-to-number conversion, so the except branch yields the 0
default. -/
theorem C3_wins_counterexample :
    wins_from_oscars
      (some "Nominated for 3 Oscars.\nWon 1, including Best Picture.") = 0 ∧
    (0 : Nat) ≠ 1 :=
  ⟨by decide, by decide⟩

/-- C3 (amended): the award normalizers split the sentence on the comma
and word-to-number a fixed token of each clause (third of the first clause
for nominations, second of the after-comma clause for wins).  On the input
"Nominated for 3 Oscars.\nWon 1, including Best Picture." the nominations
normalizer returns 3, but the wins normalizer reads the token "best" from
the clause after the comma, fails the conversion and returns the default
0; a sentence whose comma precedes the wins count, such as
"Nominated for 3 Oscars, Won 1.", yields wins 1. -/
theorem C3_award_normalizers :
    noms_from_oscars
      (some "Nominated for 3 Oscars.\nWon 1, including Best Picture.") = 3 ∧
    wins_from_oscars
      (some "Nominated for 3 Oscars.\nWon 1, including Best Picture.") = 0 ∧
    noms_from_oscars (some "Nominated for 3 Oscars, Won 1.") = 3 ∧
    wins_from_oscars (some "Nominated for 3 Oscars, Won 1.") = 1 :=
  ⟨by decide, by decide, by decide, by decide⟩

/-! ## Claim C6 -/

/-- C6: every value normalizer is total — each is a function into a typed
value or an absent/zero default, and on the malformed inputs None, "N/A"
and "" each returns without raising: the date, money, budget, theater and
runtime normalizers return absent, the award counters return 0, and the
title normalizer returns the (trimmed) input itself, a typed value; the
people normalizer maps an absent container to absent and never fails on a
present one. -/
theorem C6_normalizers_total :
    (clean_title none = none ∧ clean_title (some "N/A") = some "N/A" ∧
      clean_title (some "") = some "") ∧
    (to_date none = none ∧ to_date (some "N/A") = none ∧
      to_date (some "") = none) ∧
    (money_to_int none = none ∧ money_to_int (some "N/A") = none ∧
      money_to_int (some "") = none) ∧
    (budget_to_int none = none ∧ budget_to_int (some "N/A") = none ∧
      budget_to_int (some "") = none) ∧
    (noms_from_oscars none = 0 ∧ noms_from_oscars (some "N/A") = 0 ∧
      noms_from_oscars (some "") = 0) ∧
    (wins_from_oscars none = 0 ∧ wins_from_oscars (some "N/A") = 0 ∧
      wins_from_oscars (some "") = 0) ∧
    (theaters_to_int none = none ∧ theaters_to_int (some "N/A") = none ∧
      theaters_to_int (some "") = none) ∧
    (runtime_to_minutes none = none ∧ runtime_to_minutes (some "N/A") = none ∧
      runtime_to_minutes (some "") = none) ∧
    (people_to_list none = none ∧
      ∀ n : Node, (people_to_list (some n)).isSome = true) := by
  refine ⟨⟨by decide, by decide, by decide⟩, ⟨by decide, by decide, by decide⟩,
    ⟨by decide, by decide, by decide⟩, ⟨by decide, by decide, by decide⟩,
    ⟨by decide, by decide, by decide⟩, ⟨by decide, by decide, by decide⟩,
    ⟨by decide, by decide, by decide⟩, ⟨by decide, by decide, by decide⟩,
    rfl, ?_⟩
  intro n
  simp [people_to_list]

/-! ## Claim C7 -/

/-- C7 counterexample: "$12.5 million (estimated)" is not of the
{numeric part, magnitude word} shape — it has a third token — yet the
normalizer returns 12500000 rather than absent: tokens past the second
are ignored. -/
theorem C7_shape_counterexample :
    budget_to_int (some "$12.5 million (estimated)") = some 12500000 ∧
    some (12500000 : Int) ≠ (none : Option Int) :=
  ⟨by decide, by decide⟩

/-- chars_split never returns the empty list. -/
theorem chars_split_ne_nil (sep : Char) (cs : List Char) :
    chars_split sep cs ≠ [] := by
  cases cs with
  | nil => simp [chars_split]
  | cons c cs =>
    simp only [chars_split]
    split
    · simp
    · split <;> simp

/-- C7 (amended): the scaled-budget normalizer strips dollar signs, splits
on spaces, and consults only the first two tokens: whenever the first
parses as a decimal f and the second is a magnitude word of scale m
(thousand 1e3, million 1e6, billion 1e9) it returns the truncated product,
regardless of any tokens after the second; otherwise (non-numeric first
token, missing or unrecognized magnitude word, absent input) it returns
absent.  In particular "$12.5 million" maps to 12500000. -/
theorem C7_budget_scaled :
    (∀ s f m, pyfloat ((pysplit ' ' (pydel '$' s)).headD "") = some f →
      vals_dict ((pysplit ' ' (pydel '$' s)).getD 1 "") = some m →
      budget_to_int (some s) = some (pydec_trunc (pydec_mul f m))) ∧
    budget_to_int (some "$12.5 million") = some 12500000 ∧
    budget_to_int (some "$2 thousand") = some 2000 ∧
    budget_to_int (some "$3 billion") = some 3000000000 ∧
    budget_to_int (some "$12.5 million (estimated)") = some 12500000 ∧
    budget_to_int (some "$12.5") = none ∧
    budget_to_int (some "$12.5 mln") = none ∧
    budget_to_int (some "twelve million") = none ∧
    budget_to_int none = none := by
  refine ⟨?_, by decide, by decide, by decide, by decide, by decide,
    by decide, by decide, rfl⟩
  intro s f m hx hm
  unfold budget_to_int
  cases hsp : pysplit ' ' (pydel '$' s) with
  | nil =>
    exfalso
    have h := chars_split_ne_nil ' ' (pydel '$' s).toList
    simp only [pysplit, List.map_eq_nil_iff] at hsp
    exact h hsp
  | cons x rest =>
    cases rest with
    | nil =>
      exfalso
      rw [hsp] at hm
      simp only [List.getD, List.get?, Option.getD] at hm
      simp [vals_dict, assoc_lookup] at hm
    | cons w rest2 =>
      rw [hsp] at hx hm
      simp only [List.headD] at hx
      simp only [List.getD, List.get?, Option.getD] at hm
      simp [hsp, hx, hm]

/-- Witness for C7's token rule at the spec's example: the first token
"12.5" parses as the decimal 12.5, "million" scales by 1e6, and the
normalizer returns the truncated product 12500000. -/
theorem C7_budget_scaled_witness :
    budget_to_int (some "$12.5 million") =
      some (pydec_trunc (pydec_mul (PyDecimal.mk false 12 5 1) 1000000)) :=
  C7_budget_scaled.1 "$12.5 million" (PyDecimal.mk false 12 5 1) 1000000
    (by decide) (by decide)
